import Mathlib

/-!
Verification of the LangChain RAG sample application (Node.js).

Shallow embedding of the core state and operations: the in-memory vector
index, the document registry, the per-user conversational memory store, the
text splitter configuration, and the request handlers for upload (text
ingestion), ask (retrieval-augmented question answering), summarize, and
memory management.  Text is modelled as `List Char` (one element per UTF-16
code unit of the JavaScript string); the embedding and generation
collaborators are abstracted as function parameters; `uuidv4` id generation
is modelled by a strictly increasing counter in the state, which captures the
freshness of generated ids.
-/

namespace Rag

/-- A message held by a user session (one BufferMemory chat-history entry):
a role ("human" or "ai") and the message text. -/
structure Msg where
  role : String
  content : List Char
deriving DecidableEq, Repr

/-- A chunk stored in the MemoryVectorStore, with the metadata attached by the
upload handlers: the chunk text, the source filename, a generated chunk id
(uuid, modelled as a number) and the chunk index within its document. -/
structure Chunk where
  pageContent : List Char
  source : String
  chunkId : Nat
  chunkIndex : Nat
deriving DecidableEq, Repr

/-- A document registry record (the value stored in `documentsMetadata`):
generated id, filename, chunk count and size in bytes. -/
structure Document where
  id : Nat
  filename : String
  chunks : Nat
  size : Nat
deriving DecidableEq, Repr

/-- The per-user memory store: `userMemories` is a JavaScript Map from userId
to a BufferMemory; modelled as an insertion-ordered association list with
unique keys, each value being the session's ordered message history. -/
abbrev MemStore := List (String × List Msg)

/-- The shared in-process state (the `_init.js` cache / `server.js` module
globals): the vector index, the document registry (insertion-ordered), the
per-user memories, and the id counter modelling `uuidv4` freshness. -/
structure ServerState where
  vectorStore : List Chunk
  documentsMetadata : List Document
  userMemories : MemStore
  nextId : Nat
deriving DecidableEq, Repr

/-! ### Conversational memory store (api/memory.js, chat/ask handlers) -/

/-- `userMemories.get(userId)` composed with reading the chat history:
the session's message list, when the session exists. -/
def lookupMemory (uid : String) (ms : MemStore) : Option (List Msg) :=
  (ms.find? (fun p => p.1 == uid)).map (fun p => p.2)

/-- `userMemories.has(userId)`. -/
def hasMemory (uid : String) (ms : MemStore) : Bool :=
  (ms.find? (fun p => p.1 == uid)).isSome

/-- The `if (!userMemories.has(userId)) userMemories.set(userId, new
BufferMemory(...))` pattern of the chat/ask handlers: create an empty session
when none exists. -/
def ensureMemory (uid : String) (ms : MemStore) : MemStore :=
  if hasMemory uid ms then ms else ms ++ [(uid, [])]

/-- getOrCreate: the existing session's history, or a fresh empty one,
together with the store after the lazy creation. -/
def getOrCreate (uid : String) (ms : MemStore) : List Msg × MemStore :=
  ((lookupMemory uid ms).getD [], ensureMemory uid ms)

/-- `userMemories.delete(userId)` (api/memory.js DELETE handler): returns
whether a session existed, and the store without that user's entry. -/
def deleteMemory (uid : String) (ms : MemStore) : Bool × MemStore :=
  (hasMemory uid ms, ms.filter (fun p => p.1 != uid))

/-- ConversationChain's save step: on a successful generation the user input
and the assistant reply are appended, in that order, to the session. -/
def appendTurns (uid : String) (input answer : List Char) (ms : MemStore) : MemStore :=
  ms.map (fun p => if p.1 == uid then (p.1, p.2 ++ [⟨"human", input⟩, ⟨"ai", answer⟩]) else p)

/-- The GET /api/memory response: message count, the `slice(-10)` window of
most recent messages, and the status string (api/memory.js GET handler). -/
structure MemoryView where
  messageCount : Nat
  recentMessages : List Msg
  status : String
deriving DecidableEq, Repr

/-- JavaScript `array.slice(-n)`: the last `n` elements (the whole array when
it is shorter than `n`). -/
def lastN (n : Nat) (l : List Msg) : List Msg :=
  l.drop (l.length - n)

/-- GET /api/memory handler (api/memory.js): no session reports count 0 and an
empty window; an existing session reports the full history length and the
`chatHistory.slice(-10)` window. -/
def getMemory (uid : String) (ms : MemStore) : MemoryView :=
  match lookupMemory uid ms with
  | none => ⟨0, [], "No memory found"⟩
  | some h => ⟨h.length, lastN 10 h, "Memory retrieved"⟩

/-! ### Vector retrieval (MemoryVectorStore.similaritySearch) -/

/-- Insert a chunk into a list already sorted by descending score, before the
first element whose score is not greater, so that equal scores keep insertion
order (stable ranking). -/
def insertDesc (f : Chunk → Int) (c : Chunk) : List Chunk → List Chunk
  | [] => [c]
  | d :: ds => if f d > f c then d :: insertDesc f c ds else c :: d :: ds

/-- Stable sort by descending score (similarity ranking of the vector store;
ties keep insertion order). -/
def sortDesc (f : Chunk → Int) : List Chunk → List Chunk
  | [] => []
  | c :: cs => insertDesc f c (sortDesc f cs)

/-- `vectorStore.similaritySearch(query, k)`: rank every indexed chunk by the
similarity of its embedding to the query's embedding — the scoring function
abstracts the embedding collaborator — and take the top `k`. -/
def similaritySearch (score : String → Chunk → Int) (store : List Chunk)
    (query : String) (k : Nat) : List Chunk :=
  (sortDesc (score query) store).take k

/-! ### Text splitter -/

/-- Modelled from the spec: the repository only configures langchain's
RecursiveCharacterTextSplitter (`chunkSize: 1000, chunkOverlap: 200` in
api/_init.js and server.js); the splitting algorithm itself is library code
outside this repository.  Per spec section 4.1 the text is cut into windows of
at most `cs` characters, consecutive windows overlapping by the configured
overlap, preserving original order: window starts advance by `cs - overlap`
until a window reaches the end of the text.  `fuel` bounds the recursion. -/
def chunkStartsAux (cs step len : Nat) : Nat → Nat → List Nat
  | 0, s => [s]
  | fuel + 1, s => if s + cs < len then s :: chunkStartsAux cs step len fuel (s + step) else [s]

/-- The window start offsets for a text of length `len` with chunk size `cs`
and overlap `ov`. -/
def chunkStarts (cs ov len : Nat) : List Nat :=
  chunkStartsAux cs (cs - ov) len len 0

/-- Modelled from the spec (section 4.1 segmentation): split a text into
chunks of at most `cs` characters with `ov` characters of overlap between
consecutive chunks, preserving order.  Empty input yields no chunks. -/
def splitText (cs ov : Nat) (text : List Char) : List (List Char) :=
  if text = [] then []
  else (chunkStarts cs ov text.length).map (fun s => (text.drop s).take cs)

/-! ### Document ingestion (api/upload.js, text variant) -/

/-- The upload response: generated document id, chunk count, filename. -/
structure IngestResult where
  documentId : Nat
  chunks : Nat
  filename : String
deriving DecidableEq, Repr

/-- The text upload handler (api/upload.js text variant): reject empty text
(JavaScript falsiness check `if (!text)`), split the text with the configured
splitter, tag each chunk with the source filename, a fresh chunk id and its
chunk index, append all chunks to the vector index, and register a new
Document record under a freshly generated id.  `uuidv4` is modelled by the
state's counter: chunk `i` receives id `nextId + i` and the document receives
the next id after the chunks. -/
def ingestText (st : ServerState) (text : List Char) (filename : String) :
    Except String (IngestResult × ServerState) :=
  if text = [] then Except.error "No text provided"
  else
    let splitDocs := splitText 1000 200 text
    let docsWithMeta := splitDocs.enum.map
      (fun p => ({ pageContent := p.2, source := filename,
                   chunkId := st.nextId + p.1, chunkIndex := p.1 } : Chunk))
    let documentId := st.nextId + splitDocs.length
    let record : Document :=
      { id := documentId, filename := filename, chunks := splitDocs.length,
        size := text.length }
    Except.ok
      ({ documentId := documentId, chunks := splitDocs.length, filename := filename },
       { vectorStore := st.vectorStore ++ docsWithMeta,
         documentsMetadata := st.documentsMetadata ++ [record],
         userMemories := st.userMemories,
         nextId := documentId + 1 })

/-! ### Summarization (api/summarize.js; the monolithic server.js handler is
identical with retrieval cap 100 instead of 200, so the cap is a parameter) -/

/-- Error responses of the summarize handler, tagged with the HTTP status they
carry: validation is 400, notFound is 404, generation is 500. -/
inductive SummarizeError where
  | validation (msg : String)
  | notFound (msg : String)
  | generation (msg : String)
deriving DecidableEq, Repr

/-- The summarize request body: the optional literal text and the optional
documentId destructured from `req.body`. -/
structure SummarizeReq where
  text : Option (List Char)
  documentId : Option Nat
deriving DecidableEq, Repr

/-- The summarize response body on success. -/
structure SummarizeResult where
  summary : List Char
  originalLength : Nat
  summaryLength : Nat
  rtype : String
  documentName : Option String
deriving DecidableEq, Repr

/-- `"\n\n"` as a character list, the separator used when combining chunks. -/
def sep2 : List Char := ['\n', '\n']

/-- `documentChunks.map(c => c.pageContent).join("\n\n")`. -/
def joinChunks (cs : List Chunk) : List Char :=
  List.intercalate sep2 (cs.map (fun c => c.pageContent))

/-- The chunk-gathering step of the summarize document branch: an empty-string
similarity search capped at `k` results (`similaritySearch("", 200)` in
api/summarize.js, 100 in the monolithic server.js), filtered by source
filename equality. -/
def documentChunksOf (score : String → Chunk → Int) (k : Nat)
    (st : ServerState) (filename : String) : List Chunk :=
  (similaritySearch score st.vectorStore "" k).filter (fun c => c.source == filename)

/-- The text the summarize document branch assembles for a document with the
given filename. -/
def summarizeSourceText (score : String → Chunk → Int) (k : Nat)
    (st : ServerState) (filename : String) : List Char :=
  joinChunks (documentChunksOf score k st filename)

/-- The source-resolution phase of the summarize handler: reject a request
with neither (non-empty) text nor documentId; with a documentId, look the
document up in the registry (404 when absent), gather its chunks by filename
match over the capped empty-query search (404 when none match) and join them;
otherwise use the literal text.  Returns the resolved text, the `type` field
and the optional `documentName`. -/
def resolveSource (score : String → Chunk → Int) (k : Nat) (st : ServerState)
    (req : SummarizeReq) : Except SummarizeError (List Char × String × Option String) :=
  if (req.text.getD []).isEmpty && req.documentId.isNone then
    Except.error (SummarizeError.validation "Provide text or documentId")
  else
    match req.documentId with
    | some did =>
      match st.documentsMetadata.find? (fun d => d.id == did) with
      | none => Except.error (SummarizeError.notFound "Document not found")
      | some document =>
        let documentChunks := documentChunksOf score k st document.filename
        if documentChunks.isEmpty then
          Except.error (SummarizeError.notFound "No content for document")
        else
          Except.ok (joinChunks documentChunks, "document", some document.filename)
    | none => Except.ok (req.text.getD [], "text", none)

/-- `textToSummarize.substring(0, 3000)`: the text actually handed to the
generation collaborator. -/
def generationInput (t : List Char) : List Char :=
  t.take 3000

/-- The tail of the summarize handler once the source text is resolved:
reject empty text, truncate to 3000 characters, invoke the generation
collaborator (a hard 500 failure when it fails — no degraded fallback), and
report the summary together with the resolved text's full length and the
summary's length. -/
def summarizeResolved (gen : List Char → Except String (List Char))
    (t : List Char) (ty : String) (dn : Option String) :
    Except SummarizeError SummarizeResult :=
  if t = [] then Except.error (SummarizeError.validation "No text available to summarize")
  else
    match gen (generationInput t) with
    | Except.error e => Except.error (SummarizeError.generation e)
    | Except.ok summary =>
      Except.ok { summary := summary, originalLength := t.length,
                  summaryLength := summary.length, rtype := ty, documentName := dn }

/-- The summarize handler (api/summarize.js): resolve the source text, then
run the generation tail on it. -/
def summarize (score : String → Chunk → Int) (k : Nat)
    (gen : List Char → Except String (List Char)) (st : ServerState)
    (req : SummarizeReq) : Except SummarizeError SummarizeResult :=
  match resolveSource score k st req with
  | Except.error e => Except.error e
  | Except.ok (t, ty, dn) => summarizeResolved gen t ty dn

/-- The spec's description of the summarize source text (spec sections 4.5 and
3): ALL chunks attributed to the document by filename match, concatenated in
ascending chunk-index order.  Stated from the spec's words for comparison with
`summarizeSourceText`, which is translated from the code. -/
def chunkOrderJoin (st : ServerState) (filename : String) : List Char :=
  joinChunks (sortDesc (fun c => -(c.chunkIndex : Int))
    (st.vectorStore.filter (fun c => c.source == filename)))

/-! ### Question answering (the /api/ask handlers)

The repository holds three divergent implementations of ask:
the serverless api/ask.js handler, the monolithic server.js handler with an
AbortController timeout and a degraded-mode fallback, and the plain monolithic
server.js handler whose single outer try/catch turns every thrown error into a
500 response.  Each is embedded separately.  The outcome of the
`similaritySearch` call for the request is a parameter of type
`Except String (List Chunk)` (the embedding collaborator may fail), and the
generation collaborator is a parameter taking the assembled prompt and the
session's prior turns. -/

/-- Error responses of the ask handlers: validation is 400, generationFailed
is the serverless handler's 500 "AI generation failed", ragQueryFailed is the
plain monolithic handler's catch-all 500 "RAG query failed". -/
inductive AskError where
  | validation (msg : String)
  | generationFailed (msg : String)
  | ragQueryFailed (msg : String)
deriving DecidableEq, Repr

/-- The ask response body: the answer text, the source filenames of the
returned chunks (the projection of the `sources` array used by the claims) and
the `relevantChunks` count. -/
structure AskResult where
  answer : List Char
  sources : List String
  relevantChunks : Nat
deriving DecidableEq, Repr

/-- The try/catch around `similaritySearch` in the handlers that absorb
retrieval failure: a failed search yields the empty chunk list. -/
def docsOf : Except String (List Chunk) → List Chunk
  | Except.ok l => l
  | Except.error _ => []

/-- One entry of the context block: `[Source i+1 from "source"]:` followed by
the chunk text, as assembled by every ask handler. -/
def contextEntry (i : Nat) (c : Chunk) : List Char :=
  ("[Source " ++ toString (i + 1) ++ " from \"" ++ c.source ++ "\"]:\n").toList
    ++ c.pageContent ++ ['\n']

/-- `relevantDocs.map((doc, i) => ...).join("\n")`: the context block built
from the retrieved chunks. -/
def buildContext (docs : List Chunk) : List Char :=
  List.intercalate ['\n'] (docs.enum.map (fun p => contextEntry p.1 p.2))

/-- The RAG prompt of the serverless api/ask.js handler. -/
def ragPromptServerless (context : List Char) (question : String) : List Char :=
  "\nCONTEXT FROM DOCUMENTS:\n".toList ++ context
    ++ "\n\nUSER QUESTION: ".toList ++ question.toList
    ++ ("\n\nINSTRUCTIONS:\n"
      ++ "- Answer conversationally as a helpful assistant.\n"
      ++ "- Use **bold** for important terms and \u2022 bullet points where helpful.\n"
      ++ "- If context has the answer, use it and cite the source.\n"
      ++ "- If not, say you don\x27t have a direct answer and offer general help.\n").toList

/-- The RAG prompt of the monolithic server.js handlers (both variants use the
same longer instruction block and a conversation-history marker). -/
def ragPromptMono (context : List Char) (question : String) : List Char :=
  "\n    CONTEXT FROM DOCUMENTS:\n    ".toList ++ context
    ++ "\n\n    CONVERSATION HISTORY: [Available in memory]\n\n    USER QUESTION: ".toList
    ++ question.toList
    ++ ("\n\n    INSTRUCTIONS:\n"
      ++ "    - Answer conversationally like a helpful assistant\n"
      ++ "    - Use **bold** for important terms and key points\n"
      ++ "    - Use bullet points \u2022 for lists when helpful\n"
      ++ "    - Use numbered lists for steps or sequences\n"
      ++ "    - Break into clear paragraphs for readability\n"
      ++ "    - Be concise but thorough\n"
      ++ "    - If information comes from documents, mention it naturally\n"
      ++ "    - If context doesn\x27t have the answer, say so politely and offer general help\n\n"
      ++ "    Please provide a helpful, well-formatted response:").toList

/-- The fixed degraded-mode answer installed by the monolithic timeout handler
when generation fails or exceeds its 10-second budget. -/
def degradedAnswer : List Char :=
  "I\x27m having trouble generating a response right now.".toList

/-- The generation collaborator for interactive calls: the assembled prompt
and the session's prior turns, yielding the answer or a failure (which also
models a timeout). -/
abbrev GenFn := List Char → List Msg → Except String (List Char)

/-- The success response of an ask handler: the answer, the sources built
from the retrieved chunks, the chunk count, and the updated state whose
session gained the user turn (the full RAG prompt is what ConversationChain
stores as the user input) and the assistant turn. -/
def askSuccess (docs : List Chunk) (prompt : List Char) (uid : String)
    (st : ServerState) (answer : List Char) : AskResult × ServerState :=
  ({ answer := answer, sources := docs.map (fun c => c.source),
     relevantChunks := docs.length },
   { st with userMemories := appendTurns uid prompt answer (ensureMemory uid st.userMemories) })

/-- The tail of the serverless api/ask.js handler after `chain.call`: a
generation failure becomes a hard 500 error, a success is returned. -/
def serverlessOutcome (docs : List Chunk) (prompt : List Char) (uid : String)
    (st : ServerState) : Except String (List Char) → Except AskError (AskResult × ServerState)
  | Except.error e => Except.error (AskError.generationFailed e)
  | Except.ok answer => Except.ok (askSuccess docs prompt uid st answer)

/-- The tail of the monolithic timeout handler after `chain.call`: a failure
or timeout is replaced by the fixed degraded answer and the call still
succeeds; the session keeps only the lazily created empty memory in that
case, since the chain never completed. -/
def monoOutcome (docs : List Chunk) (prompt : List Char) (uid : String)
    (st : ServerState) : Except String (List Char) → Except AskError (AskResult × ServerState)
  | Except.error _ =>
    Except.ok
      ({ answer := degradedAnswer, sources := docs.map (fun c => c.source),
         relevantChunks := docs.length },
       { st with userMemories := ensureMemory uid st.userMemories })
  | Except.ok answer => Except.ok (askSuccess docs prompt uid st answer)

/-- The tail of the plain monolithic handler after `chain.call`: a generation
failure reaches the single outer catch and becomes a 500 "RAG query
failed". -/
def legacyOutcome (docs : List Chunk) (prompt : List Char) (uid : String)
    (st : ServerState) : Except String (List Char) → Except AskError (AskResult × ServerState)
  | Except.error e => Except.error (AskError.ragQueryFailed e)
  | Except.ok answer => Except.ok (askSuccess docs prompt uid st answer)

/-- The serverless api/ask.js handler: validate the question, absorb a
retrieval failure into an empty chunk list, build the context and prompt,
run the conversation chain on the prompt and the session's prior turns, and
surface a generation failure as a hard 500 error. -/
def askServerless (search : Except String (List Chunk)) (gen : GenFn)
    (st : ServerState) (userId question : String) :
    Except AskError (AskResult × ServerState) :=
  if question = "" then Except.error (AskError.validation "Invalid or missing question")
  else
    serverlessOutcome (docsOf search)
      (ragPromptServerless (buildContext (docsOf search)) question) userId st
      (gen (ragPromptServerless (buildContext (docsOf search)) question)
        ((lookupMemory userId st.userMemories).getD []))

/-- The monolithic server.js ask handler with the AbortController timeout
(the variant with the degraded fallback): identical retrieval absorption, but
the generation outcome runs through the degraded-mode tail. -/
def askMono (search : Except String (List Chunk)) (gen : GenFn)
    (st : ServerState) (userId question : String) :
    Except AskError (AskResult × ServerState) :=
  if question = "" then Except.error (AskError.validation "No question provided")
  else
    monoOutcome (docsOf search)
      (ragPromptMono (buildContext (docsOf search)) question) userId st
      (gen (ragPromptMono (buildContext (docsOf search)) question)
        ((lookupMemory userId st.userMemories).getD []))

/-- The plain monolithic server.js ask handler: `similaritySearch` is not
wrapped in an inner try, so a retrieval failure propagates to the single
outer catch and becomes a 500 "RAG query failed" response. -/
def askLegacy (search : Except String (List Chunk)) (gen : GenFn)
    (st : ServerState) (userId question : String) :
    Except AskError (AskResult × ServerState) :=
  if question = "" then Except.error (AskError.validation "No question provided")
  else
    match search with
    | Except.error e => Except.error (AskError.ragQueryFailed e)
    | Except.ok relevantDocs =>
      legacyOutcome relevantDocs
        (ragPromptMono (buildContext relevantDocs) question) userId st
        (gen (ragPromptMono (buildContext relevantDocs) question)
          ((lookupMemory userId st.userMemories).getD []))

/-! ### Concrete collaborators and states used to evaluate the theorems -/

/-- A scoring function giving every chunk the same score (ranking degenerates
to insertion order). -/
def constScore : String → Chunk → Int := fun _ _ => 0

/-- A generation collaborator that always succeeds for summarization. -/
def okGen : List Char → Except String (List Char) := fun _ => Except.ok "ok".toList

/-- The fresh state right after initialization. -/
def emptyState : ServerState := ⟨[], [], [], 0⟩

/-- An interactive generation collaborator that fails (or times out). -/
def cxGenFail : GenFn := fun _ _ => Except.error "boom"

/-- An interactive generation collaborator that succeeds. -/
def cxGenOk : GenFn := fun _ _ => Except.ok "fine".toList

/-- A scoring function under which the empty query ranks later chunks higher:
the embedding collaborator is free to produce such similarities. -/
def c3score : String → Chunk → Int := fun _ c => (c.chunkIndex : Int)

/-- First chunk (index 0) of the document used against claim C3. -/
def c3chunkA : Chunk := ⟨"AA".toList, "f.pdf", 10, 0⟩

/-- Second chunk (index 1) of the document used against claim C3. -/
def c3chunkB : Chunk := ⟨"BB".toList, "f.pdf", 11, 1⟩

/-- A state holding one registered document whose two chunks sit in the index
in ascending chunk order. -/
def c3state : ServerState := ⟨[c3chunkA, c3chunkB], [⟨1, "f.pdf", 2, 4⟩], [], 20⟩

/-- A state with a registered document but no chunks in the index. -/
def c4docState : ServerState := ⟨[], [⟨1, "g.pdf", 0, 0⟩], [], 2⟩

/-- A 2500-character text for the splitter property. -/
def c5text : List Char := List.replicate 2500 'a'

/-- An 11-character text for the double-ingestion run. -/
def c7text : List Char := "hello world".toList

/-- Result of the first ingestion of `c7text` from the fresh state. -/
def c7r1 : IngestResult := ⟨1, 1, "a.txt"⟩

/-- State after the first ingestion of `c7text`. -/
def c7st1 : ServerState := ⟨[⟨c7text, "a.txt", 0, 0⟩], [⟨1, "a.txt", 1, 11⟩], [], 2⟩

/-- Result of the second, identical ingestion. -/
def c7r2 : IngestResult := ⟨3, 1, "a.txt"⟩

/-- State after the second ingestion. -/
def c7st2 : ServerState :=
  ⟨[⟨c7text, "a.txt", 0, 0⟩, ⟨c7text, "a.txt", 2, 0⟩],
   [⟨1, "a.txt", 1, 11⟩, ⟨3, "a.txt", 1, 11⟩], [], 4⟩

/-- A 12-message session history. -/
def c9hist : List Msg := List.replicate 12 ⟨"human", ['x']⟩

/-- A memory store holding that session for user u1. -/
def c9store : MemStore := [("u1", c9hist)]

/-- A 4000-character source text, longer than the 3000-character cap. -/
def c10text : List Char := List.replicate 4000 'a'

/-- A literal-text summarize request for that text. -/
def c10req : SummarizeReq := ⟨some c10text, none⟩

/-! ### Helper lemmas -/

/-- Membership in a stable descending insertion: the inserted element or one
of the originals. -/
lemma mem_of_mem_insertDesc (f : Chunk → Int) (c a : Chunk) :
    ∀ l : List Chunk, a ∈ insertDesc f c l → a = c ∨ a ∈ l := by
  intro l
  induction l with
  | nil =>
    intro h
    simp only [insertDesc, List.mem_singleton] at h
    exact Or.inl h
  | cons d ds ih =>
    intro h
    rw [insertDesc] at h
    by_cases hf : f d > f c
    · rw [if_pos hf] at h
      rcases List.mem_cons.mp h with h | h
      · exact Or.inr (by simp [h])
      · rcases ih h with h | h
        · exact Or.inl h
        · exact Or.inr (by simp [h])
    · rw [if_neg hf] at h
      rcases List.mem_cons.mp h with h | h
      · exact Or.inl h
      · exact Or.inr h

/-- The stable descending sort permutes: every member of the output is a
member of the input. -/
lemma mem_of_mem_sortDesc (f : Chunk → Int) (a : Chunk) :
    ∀ l : List Chunk, a ∈ sortDesc f l → a ∈ l := by
  intro l
  induction l with
  | nil => intro h; simp [sortDesc] at h
  | cons c cs ih =>
    intro h
    rw [sortDesc] at h
    rcases mem_of_mem_insertDesc f c a _ h with h | h
    · simp [h]
    · exact List.mem_cons_of_mem _ (ih h)

/-- When every element carries the same score, the stable descending sort is
the identity (ties keep insertion order). -/
lemma sortDesc_of_const (f : Chunk → Int) (s0 : Int) :
    ∀ l : List Chunk, (∀ c ∈ l, f c = s0) → sortDesc f l = l := by
  intro l
  induction l with
  | nil => intro _; rfl
  | cons c cs ih =>
    intro h
    have hc : f c = s0 := h c (by simp)
    rw [sortDesc, ih (fun d hd => h d (by simp [hd]))]
    cases cs with
    | nil => rfl
    | cons d ds =>
      have hd : f d = s0 := h d (by simp)
      rw [insertDesc, if_neg (by rw [hc, hd]; exact lt_irrefl s0)]

/-- When no chunk of the whole index matches the filename, the capped search
cannot produce a matching chunk either. -/
lemma documentChunksOf_eq_nil (score : String → Chunk → Int) (k : Nat)
    (st : ServerState) (fn : String)
    (h : st.vectorStore.filter (fun c => c.source == fn) = []) :
    documentChunksOf score k st fn = [] := by
  rw [documentChunksOf, similaritySearch, List.filter_eq_nil_iff]
  intro c hc
  have hcs : c ∈ st.vectorStore :=
    mem_of_mem_sortDesc _ c _ (List.mem_of_mem_take hc)
  exact (List.filter_eq_nil_iff.mp h) c hcs

/-- The literal-text branch of the summarize source resolution: non-empty
literal text resolves to itself with type "text" and no document name. -/
lemma resolveSource_text (score : String → Chunk → Int) (k : Nat)
    (st : ServerState) (t : List Char) (h : t.isEmpty = false) :
    resolveSource score k st ⟨some t, none⟩ = Except.ok (t, "text", none) := by
  rw [resolveSource]
  simp [h]

/-! ### Claim theorems -/

/-- C8: for every userId, clear removes that user's session and returns true
exactly when a session existed, and a subsequent getOrCreate yields an empty
message history. -/
theorem clear_then_getOrCreate (uid : String) (ms : MemStore) :
    ((deleteMemory uid ms).1 = true ↔ (lookupMemory uid ms).isSome = true)
    ∧ hasMemory uid (deleteMemory uid ms).2 = false
    ∧ (getOrCreate uid (deleteMemory uid ms).2).1 = [] := by
  have hnone : ((deleteMemory uid ms).2).find? (fun p => p.1 == uid) = none := by
    rw [List.find?_eq_none]
    intro a ha
    rw [deleteMemory] at ha
    simp only [List.mem_filter] at ha
    simpa using ha.2
  refine ⟨?_, ?_, ?_⟩
  · show hasMemory uid ms = true ↔ (lookupMemory uid ms).isSome = true
    rw [hasMemory, lookupMemory, Option.isSome_map']
  · rw [hasMemory, hnone]
    rfl
  · show ((lookupMemory uid (deleteMemory uid ms).2).getD []) = []
    rw [lookupMemory, hnone]
    rfl

/-- C9: for every existing session, getMemory reports messageCount equal to
the full history length while recentMessages is the last-10 window
(`slice(-10)`), of length at most 10, and a strict suffix of the history when
the history holds more than 10 messages. -/
theorem getMemory_recent_window (uid : String) (ms : MemStore) (h : List Msg)
    (hl : lookupMemory uid ms = some h) :
    (getMemory uid ms).messageCount = h.length
    ∧ (getMemory uid ms).recentMessages = h.drop (h.length - 10)
    ∧ (getMemory uid ms).recentMessages.length = min 10 h.length
    ∧ (getMemory uid ms).recentMessages.length ≤ 10
    ∧ (10 < h.length → (getMemory uid ms).recentMessages <:+ h
        ∧ (getMemory uid ms).recentMessages.length < h.length) := by
  have hg : getMemory uid ms = ⟨h.length, lastN 10 h, "Memory retrieved"⟩ := by
    unfold getMemory
    rw [hl]
  rw [hg]
  refine ⟨rfl, rfl, ?_, ?_, fun hgt => ⟨?_, ?_⟩⟩
  · show (lastN 10 h).length = min 10 h.length
    rw [lastN, List.length_drop]
    omega
  · show (lastN 10 h).length ≤ 10
    rw [lastN, List.length_drop]
    omega
  · show lastN 10 h <:+ h
    exact List.drop_suffix _ _
  · show (lastN 10 h).length < h.length
    rw [lastN, List.length_drop]
    omega

/-- C9 witness: a 12-message session reports messageCount 12 and a strict
10-message suffix. -/
theorem getMemory_recent_window_witness :
    (getMemory "u1" c9store).messageCount = c9hist.length
    ∧ (getMemory "u1" c9store).recentMessages = c9hist.drop (c9hist.length - 10)
    ∧ (getMemory "u1" c9store).recentMessages.length = min 10 c9hist.length
    ∧ (getMemory "u1" c9store).recentMessages.length ≤ 10
    ∧ (10 < c9hist.length → (getMemory "u1" c9store).recentMessages <:+ c9hist
        ∧ (getMemory "u1" c9store).recentMessages.length < c9hist.length) :=
  getMemory_recent_window "u1" c9store c9hist rfl

/-- C5: a 2500-character text split with chunkSize 1000 and overlap 200 yields
exactly 3 chunks, each of at most 1000 characters, and each consecutive pair
shares a 200-character boundary region (the last 200 characters of a chunk
equal the first 200 of the next). -/
theorem splitText_2500 (text : List Char) (h : text.length = 2500) :
    splitText 1000 200 text
        = [text.take 1000, (text.drop 800).take 1000, (text.drop 1600).take 1000]
    ∧ (text.take 1000).length ≤ 1000
    ∧ ((text.drop 800).take 1000).length ≤ 1000
    ∧ ((text.drop 1600).take 1000).length ≤ 1000
    ∧ (text.take 1000).drop 800 = ((text.drop 800).take 1000).take 200
    ∧ ((text.take 1000).drop 800).length = 200
    ∧ ((text.drop 800).take 1000).drop 800 = ((text.drop 1600).take 1000).take 200
    ∧ (((text.drop 800).take 1000).drop 800).length = 200 := by
  have hne : text ≠ [] := by
    intro hnil
    rw [hnil] at h
    simp at h
  have hcs : chunkStarts 1000 200 2500 = [0, 800, 1600] := by rfl
  refine ⟨?_, ?_, ?_, ?_, ?_, ?_, ?_, ?_⟩
  · rw [splitText, if_neg hne, h, hcs]
    simp
  · rw [List.length_take]
    exact Nat.min_le_left _ _
  · rw [List.length_take]
    exact Nat.min_le_left _ _
  · rw [List.length_take]
    exact Nat.min_le_left _ _
  · rw [List.take_take]
    norm_num
    exact (List.take_drop 800 200 text).symm
  · rw [List.length_drop, List.length_take, h]
    omega
  · have e1 := (List.take_drop 800 200 (text.drop 800)).symm
    rw [List.drop_drop] at e1
    norm_num at e1
    rw [List.take_take]
    norm_num
    exact e1
  · rw [List.length_drop, List.length_take, List.length_drop, h]
    omega

/-- C5 witness: the split of a concrete 2500-character text is the three
expected windows, and the first boundary region is shared. -/
theorem splitText_2500_witness :
    splitText 1000 200 c5text
        = [c5text.take 1000, (c5text.drop 800).take 1000, (c5text.drop 1600).take 1000]
    ∧ (c5text.take 1000).drop 800 = ((c5text.drop 800).take 1000).take 200 :=
  ⟨(splitText_2500 c5text (by simp only [c5text, List.length_replicate])).1,
   (splitText_2500 c5text (by simp only [c5text, List.length_replicate])).2.2.2.2.1⟩

/-- C7: ingesting byte-identical text twice under the same filename yields two
distinct document ids, grows the registry by two records, produces the same
chunk count both times, and grows the vector index by twice the single-ingest
chunk count. -/
theorem ingest_twice (st : ServerState) (text : List Char) (fn : String)
    (r1 r2 : IngestResult) (st1 st2 : ServerState)
    (h1 : ingestText st text fn = Except.ok (r1, st1))
    (h2 : ingestText st1 text fn = Except.ok (r2, st2)) :
    r1.documentId ≠ r2.documentId
    ∧ st2.documentsMetadata.length = st.documentsMetadata.length + 2
    ∧ r2.chunks = r1.chunks
    ∧ st2.vectorStore.length = st.vectorStore.length + 2 * r1.chunks := by
  by_cases ht : text = []
  · rw [ingestText, if_pos ht] at h1
    cases h1
  · rw [ingestText, if_neg ht] at h1
    rw [ingestText, if_neg ht] at h2
    simp only [Except.ok.injEq, Prod.mk.injEq] at h1 h2
    obtain ⟨hr1, hs1⟩ := h1
    obtain ⟨hr2, hs2⟩ := h2
    subst hr1 hs1 hr2 hs2
    refine ⟨?_, ?_, ?_, ?_⟩
    · show st.nextId + (splitText 1000 200 text).length
        ≠ st.nextId + (splitText 1000 200 text).length + 1 + (splitText 1000 200 text).length
      omega
    · show (st.documentsMetadata
          ++ [({ id := st.nextId + (splitText 1000 200 text).length, filename := fn,
                 chunks := (splitText 1000 200 text).length, size := text.length } : Document)]
          ++ [({ id := st.nextId + (splitText 1000 200 text).length + 1
                        + (splitText 1000 200 text).length,
                 filename := fn, chunks := (splitText 1000 200 text).length,
                 size := text.length } : Document)]).length
        = st.documentsMetadata.length + 2
      rw [List.length_append, List.length_append]
      rfl
    · rfl
    · show (st.vectorStore
          ++ ((splitText 1000 200 text).enum.map
              (fun p => ({ pageContent := p.2, source := fn,
                           chunkId := st.nextId + p.1, chunkIndex := p.1 } : Chunk)))
          ++ ((splitText 1000 200 text).enum.map
              (fun p => ({ pageContent := p.2, source := fn,
                           chunkId := st.nextId + (splitText 1000 200 text).length + 1 + p.1,
                           chunkIndex := p.1 } : Chunk)))).length
        = st.vectorStore.length + 2 * (splitText 1000 200 text).length
      rw [List.length_append, List.length_append, List.length_map, List.length_map,
        List.enum_length]
      omega

/-- C7 witness: two ingestions of the same 11-character text from the fresh
state produce document ids 1 and 3, registry size 2, equal chunk counts, and
an index of twice the single-ingest chunk count. -/
theorem ingest_twice_witness :
    c7r1.documentId ≠ c7r2.documentId
    ∧ c7st2.documentsMetadata.length = emptyState.documentsMetadata.length + 2
    ∧ c7r2.chunks = c7r1.chunks
    ∧ c7st2.vectorStore.length = emptyState.vectorStore.length + 2 * c7r1.chunks :=
  ingest_twice emptyState c7text "a.txt" c7r1 c7r2 c7st1 c7st2 rfl rfl

/-- C3 counterexample: an empty-query similarity ranking that reverses the two
chunks of a registered document makes the summarize document branch submit the
chunks joined in retrieval-rank order, which differs from the concatenation of
the document's chunks in ascending chunk order, refuting the claim as stated. -/
theorem summarize_chunk_order_cex :
    resolveSource c3score 200 c3state ⟨none, some 1⟩
        = Except.ok (summarizeSourceText c3score 200 c3state "f.pdf", "document", some "f.pdf")
    ∧ summarizeSourceText c3score 200 c3state "f.pdf" ≠ chunkOrderJoin c3state "f.pdf" := by
  constructor
  · rfl
  · decide

/-- C3 (amended): the text submitted for summarization is the concatenation of
the document's chunks among the top-k empty-query retrieval results in
similarity-rank order; when the empty-query scores are uniform, the index
holds at most k chunks, and the document's chunks sit in the index in
ascending chunk order, this coincides with the chunk-order concatenation of
all chunks attributed to the document. -/
theorem summarize_source_chunk_order (score : String → Chunk → Int) (k : Nat)
    (st : ServerState) (fn : String) (s0 : Int)
    (hconst : ∀ c ∈ st.vectorStore, score "" c = s0)
    (hk : st.vectorStore.length ≤ k)
    (hsorted : sortDesc (fun c => -(c.chunkIndex : Int))
        (st.vectorStore.filter (fun c => c.source == fn))
      = st.vectorStore.filter (fun c => c.source == fn)) :
    summarizeSourceText score k st fn = chunkOrderJoin st fn := by
  rw [summarizeSourceText, chunkOrderJoin, documentChunksOf, similaritySearch,
    sortDesc_of_const (score "") s0 st.vectorStore hconst,
    List.take_of_length_le hk, hsorted]

/-- C3 witness: under a uniform empty-query scoring of the two-chunk state the
code's submitted text equals the chunk-order concatenation. -/
theorem summarize_source_chunk_order_witness :
    summarizeSourceText constScore 200 c3state "f.pdf" = chunkOrderJoin c3state "f.pdf" :=
  summarize_source_chunk_order constScore 200 c3state "f.pdf" 0
    (fun _ _ => rfl) (by decide) (by decide)

/-- C4: a summarize call with a documentId fails with NotFoundError (404) when
the id is not in the registry, and also when the id is registered but no chunk
of the vector index matches the document's filename; neither case produces a
summary. -/
theorem summarize_not_found (score : String → Chunk → Int) (k : Nat)
    (gen : List Char → Except String (List Char)) (st : ServerState)
    (txt : Option (List Char)) (did : Nat) :
    (st.documentsMetadata.find? (fun d => d.id == did) = none →
      summarize score k gen st ⟨txt, some did⟩
        = Except.error (SummarizeError.notFound "Document not found"))
    ∧ (∀ doc, st.documentsMetadata.find? (fun d => d.id == did) = some doc →
        st.vectorStore.filter (fun c => c.source == doc.filename) = [] →
        summarize score k gen st ⟨txt, some did⟩
          = Except.error (SummarizeError.notFound "No content for document")) := by
  constructor
  · intro hfind
    rw [summarize, resolveSource]
    simp only [Option.isNone_some, Bool.and_false, Bool.false_eq_true, if_false, hfind]
  · intro doc hfind hfilter
    rw [summarize, resolveSource]
    simp only [Option.isNone_some, Bool.and_false, Bool.false_eq_true, if_false, hfind,
      documentChunksOf_eq_nil score k st doc.filename hfilter, List.isEmpty_nil, if_true]

/-- C4 witness: an unregistered id yields "Document not found"; a registered
document with no matching chunks yields "No content for document". -/
theorem summarize_not_found_witness :
    summarize constScore 200 okGen emptyState ⟨none, some 5⟩
        = Except.error (SummarizeError.notFound "Document not found")
    ∧ summarize constScore 200 okGen c4docState ⟨none, some 1⟩
        = Except.error (SummarizeError.notFound "No content for document") :=
  ⟨(summarize_not_found constScore 200 okGen emptyState none 5).1 rfl,
   (summarize_not_found constScore 200 okGen c4docState none 1).2 ⟨1, "g.pdf", 0, 0⟩ rfl rfl⟩

/-- C6: every successful summarize call hands the generation collaborator
exactly the 3000-character prefix of the resolved source text — the prefix of
length the minimum of the text's length and 3000; characters beyond that never
reach generation. -/
theorem summarize_truncates (score : String → Chunk → Int) (k : Nat)
    (gen : List Char → Except String (List Char)) (st : ServerState)
    (req : SummarizeReq) (r : SummarizeResult)
    (t : List Char) (ty : String) (dn : Option String)
    (hres : resolveSource score k st req = Except.ok (t, ty, dn))
    (hok : summarize score k gen st req = Except.ok r) :
    gen (generationInput t) = Except.ok r.summary
    ∧ generationInput t = t.take 3000
    ∧ (generationInput t).length = min t.length 3000
    ∧ generationInput t <+: t := by
  have hok' : summarizeResolved gen t ty dn = Except.ok r := by
    rw [summarize, hres] at hok
    exact hok
  rw [summarizeResolved] at hok'
  by_cases ht : t = []
  · rw [if_pos ht] at hok'
    cases hok'
  · rw [if_neg ht] at hok'
    cases hgen : gen (generationInput t) with
    | error e => rw [hgen] at hok'; cases hok'
    | ok s =>
      rw [hgen] at hok'
      simp only [Except.ok.injEq] at hok'
      refine ⟨?_, rfl, ?_, ?_⟩
      · rw [← hok']
      · rw [generationInput, List.length_take]
        omega
      · exact ⟨t.drop 3000, List.take_append_drop 3000 t⟩

/-- C6 witness: for a 4000-character literal text the generation input is the
3000-character prefix. -/
theorem summarize_truncates_witness :
    okGen (generationInput c10text) = Except.ok "ok".toList
    ∧ generationInput c10text = c10text.take 3000
    ∧ (generationInput c10text).length = min c10text.length 3000
    ∧ generationInput c10text <+: c10text := by
  have hres : resolveSource constScore 200 emptyState c10req
      = Except.ok (c10text, "text", none) :=
    resolveSource_text constScore 200 emptyState c10text (by rw [c10text]; rfl)
  have hok : summarize constScore 200 okGen emptyState c10req
      = Except.ok ⟨"ok".toList, c10text.length, "ok".toList.length, "text", none⟩ := by
    rw [summarize, hres]
    show summarizeResolved okGen c10text "text" none = _
    rw [summarizeResolved, if_neg (by decide : ¬ c10text = [])]
    rfl
  exact summarize_truncates constScore 200 okGen emptyState c10req _
    c10text "text" none hres hok

/-- C10: a successful summarize call reports originalLength equal to the full
resolved source text's length — before the 3000-character truncation — and
summaryLength equal to the generated summary's length. -/
theorem summarize_reports_lengths (score : String → Chunk → Int) (k : Nat)
    (gen : List Char → Except String (List Char)) (st : ServerState)
    (req : SummarizeReq) (t : List Char) (ty : String) (dn : Option String)
    (s : List Char)
    (hres : resolveSource score k st req = Except.ok (t, ty, dn))
    (ht : ¬ t = [])
    (hgen : gen (generationInput t) = Except.ok s) :
    summarize score k gen st req
      = Except.ok ⟨s, t.length, s.length, ty, dn⟩ := by
  rw [summarize, hres]
  show summarizeResolved gen t ty dn = Except.ok ⟨s, t.length, s.length, ty, dn⟩
  rw [summarizeResolved, if_neg ht, hgen]

/-- C10 witness: the 4000-character literal text yields originalLength equal
to the full 4000-character source length (exceeding the 3000-character
generation cap) and summaryLength equal to the summary's length. -/
theorem summarize_reports_lengths_witness :
    summarize constScore 200 okGen emptyState c10req
        = Except.ok ⟨"ok".toList, c10text.length, "ok".toList.length, "text", none⟩
    ∧ c10text.length = 4000 :=
  ⟨summarize_reports_lengths constScore 200 okGen emptyState c10req
      c10text "text" none "ok".toList
      (resolveSource_text constScore 200 emptyState c10text (by rw [c10text]; rfl))
      (by decide) rfl,
   by rw [c10text, List.length_replicate]⟩

/-- C1 counterexample: the serverless ask handler (api/ask.js and its
part_005 draft) surfaces a generation failure as a hard 500 error instead of
succeeding with the degraded answer, refuting the claim as stated for that
ask implementation. -/
theorem ask_degraded_cex :
    askServerless (Except.ok []) cxGenFail emptyState "u1" "hello"
      = Except.error (AskError.generationFailed "boom") := by
  rfl

/-- C1 (amended): the monolithic ask handler with the 10-second
AbortController timeout absorbs any generation failure or timeout — the call
succeeds and answers with the fixed degraded-mode text "I'm having trouble
generating a response right now."; the serverless ask handlers instead
surface the failure as a 500 error. -/
theorem askMono_degraded_on_generation_failure
    (search : Except String (List Chunk)) (gen : GenFn) (st : ServerState)
    (uid q : String) (e : String)
    (hq : ¬ q = "")
    (hgen : gen (ragPromptMono (buildContext (docsOf search)) q)
        ((lookupMemory uid st.userMemories).getD []) = Except.error e) :
    askMono search gen st uid q
      = Except.ok
          ({ answer := degradedAnswer,
             sources := (docsOf search).map (fun c => c.source),
             relevantChunks := (docsOf search).length },
           { st with userMemories := ensureMemory uid st.userMemories }) := by
  rw [askMono, if_neg hq, hgen]
  rfl

/-- C1 witness: a failing generation collaborator still yields a successful
monolithic ask response carrying the degraded answer. -/
theorem askMono_degraded_witness :
    askMono (Except.ok []) cxGenFail emptyState "u1" "hello"
      = Except.ok
          ({ answer := degradedAnswer, sources := [], relevantChunks := 0 },
           { vectorStore := [], documentsMetadata := [],
             userMemories := [("u1", [])], nextId := 0 }) :=
  askMono_degraded_on_generation_failure (Except.ok []) cxGenFail emptyState
    "u1" "hello" "boom" (by decide) rfl

/-- C2 counterexample: the plain monolithic server.js ask handler does not
wrap the similarity search in an inner try, so a retrieval failure is caught
by the outer handler and returned as a 500 "RAG query failed" error instead
of being absorbed, refuting the claim as stated for that ask
implementation. -/
theorem ask_retrieval_cex :
    askLegacy (Except.error "embedding down") cxGenOk emptyState "u1" "hello"
      = Except.error (AskError.ragQueryFailed "embedding down") := by
  rfl

/-- C2 (amended): the serverless ask handler absorbs a retrieval failure — it
behaves exactly as if retrieval had returned no chunks, still invokes the
generation collaborator with an empty context block, and succeeds with zero
relevant chunks; the plain monolithic server.js handler instead surfaces the
retrieval failure as a 500 error. -/
theorem askServerless_absorbs_search_failure
    (e : String) (gen : GenFn) (st : ServerState) (uid q : String)
    (ans : List Char)
    (hq : ¬ q = "")
    (hgen : gen (ragPromptServerless (buildContext []) q)
        ((lookupMemory uid st.userMemories).getD []) = Except.ok ans) :
    askServerless (Except.error e) gen st uid q
        = askServerless (Except.ok []) gen st uid q
    ∧ askServerless (Except.error e) gen st uid q
        = Except.ok
            ({ answer := ans, sources := [], relevantChunks := 0 },
             { st with userMemories := (appendTurns uid
                (ragPromptServerless (buildContext []) q) ans
                (ensureMemory uid st.userMemories)) }) := by
  constructor
  · rfl
  · rw [askServerless, if_neg hq,
      show docsOf (Except.error e : Except String (List Chunk)) = [] from rfl, hgen]
    rfl

/-- C2 witness: with failing retrieval and succeeding generation the
serverless ask call matches the empty-retrieval run and succeeds with zero
relevant chunks. -/
theorem askServerless_absorbs_witness :
    askServerless (Except.error "embedding down") cxGenOk emptyState "u1" "hello"
        = askServerless (Except.ok []) cxGenOk emptyState "u1" "hello"
    ∧ askServerless (Except.error "embedding down") cxGenOk emptyState "u1" "hello"
        = Except.ok
            ({ answer := "fine".toList, sources := [], relevantChunks := 0 },
             { emptyState with userMemories := (appendTurns "u1"
                (ragPromptServerless (buildContext []) "hello")
                "fine".toList (ensureMemory "u1" emptyState.userMemories)) }) :=
  askServerless_absorbs_search_failure "embedding down" cxGenOk emptyState
    "u1" "hello" "fine".toList (by decide) rfl

end Rag
